import Mathlib

/-!
Verification of the flathub com.unity.UnityHub helper scripts.

The development shallowly embeds the behaviourally relevant parts of
`src/vscode.py` (the port-identity allocator `forward_unity_socket`, the
`VscodeBridge`/`UnityBridge` relay protocols, the upstream-port arithmetic in
`main`) and `src/unityhub.py` (`replace_pref`), and proves or refutes the
specification's claims about them.
-/

namespace UnityHub

/-! ### Port identity allocator

`forward_unity_socket` (src/vscode.py, lines 237-255) scans candidate
identities with `itertools.count(3)`; for each candidate it tries to bind a
listener on `localhost:(56000 + candidate)`.  A bind failure with
`errno.EADDRINUSE` makes it continue to the next candidate; any other
`OSError` is re-raised; a successful bind returns the candidate identity and
the bound server.

The environment is modelled as a function from port numbers to bind
outcomes.  The scan is written with explicit fuel (the Python loop is
unbounded); besides the result we record the list of candidates probed, in
order, so that "starts at `min_identity`, increments by one, stops at the
first non-collision outcome" is itself provable. -/

/-- Value of `errno.EADDRINUSE` on Linux, the sole errno the scan retries past. -/
def EADDRINUSE : Nat := 98

/-- Outcome of one attempt to bind a listener on a given port. -/
inductive BindOutcome where
  | success
  | failErr (errno : Nat)
deriving DecidableEq

/-- One scan step of `forward_unity_socket`, generalised over the base port and
the starting candidate (the source instantiates them with `56000` and `3`).
Returns `(result, probed)`: `result` is `none` when fuel ran out, or the
identity/port pair on bind success, or the propagated errno on a fatal bind
error; `probed` lists the candidates attempted, in order. -/
def allocScan (env : Nat → BindOutcome) (base : Nat) :
    Nat → Nat → Option (Except Nat (Nat × Nat)) × List Nat
  | _, 0 => (none, [])
  | cand, fuel + 1 =>
    match env (base + cand) with
    | .success => (some (.ok (cand, base + cand)), [cand])
    | .failErr e =>
      if e = EADDRINUSE then
        let r := allocScan env base (cand + 1) fuel
        (r.1, cand :: r.2)
      else
        (some (.error e), [cand])

/-- `forward_unity_socket` as in the source: base port 56000, scan starting at
candidate identity 3. -/
def forward_unity_socket (env : Nat → BindOutcome) (fuel : Nat) :
    Option (Except Nat (Nat × Nat)) × List Nat :=
  allocScan env 56000 3 fuel

/-! ### Upstream port arithmetic (src/vscode.py, lines 311-312) -/

/-- `unity_port = unity_pid % 1000 + 56000`, computed in `main` from the
parent process id. -/
def unity_port (unity_pid : Nat) : Nat := unity_pid % 1000 + 56000

/-- C2: if every candidate below `k` collides and `k` binds, the scan returns
identity `k` with a listener on `base + k`, having probed exactly
`min, min+1, ..., k` in order. -/
theorem allocScan_first_free (env : Nat → BindOutcome) (base min k fuel : Nat)
    (hmin : min ≤ k)
    (hbusy : ∀ i, min ≤ i → i < k → env (base + i) = .failErr EADDRINUSE)
    (hfree : env (base + k) = .success)
    (hfuel : k - min < fuel) :
    allocScan env base min fuel =
      (some (.ok (k, base + k)), List.range' min (k - min + 1)) := by
  induction fuel generalizing min with
  | zero => omega
  | succ f ih =>
    rcases Nat.eq_or_lt_of_le hmin with h | h
    · subst h
      simp [allocScan, hfree, List.range']
    · have hb := hbusy min le_rfl h
      have hrec := ih (min + 1) (by omega)
        (fun i h1 h2 => hbusy i (by omega) h2) (by omega)
      simp only [allocScan, hb, if_pos rfl]
      rw [hrec]
      have hlist : List.range' min (k - min + 1) =
          min :: List.range' (min + 1) (k - (min + 1) + 1) := by
        have h1 : k - min + 1 = (k - (min + 1) + 1) + 1 := by omega
        rw [h1, List.range'_succ]
      rw [hlist]
      simp

theorem allocScan_first_free_witness :
    allocScan (fun p => if p = 56005 then .success else .failErr EADDRINUSE)
        56000 3 10 = (some (.ok (5, 56005)), [3, 4, 5]) := by
  have h := allocScan_first_free
    (fun p => if p = 56005 then .success else .failErr EADDRINUSE)
    56000 3 5 10 (by omega)
    (fun i h1 h2 => by simp only [ite_eq_right_iff]; omega)
    (by simp) (by omega)
  simpa [List.range'] using h

/-- C4: if the scan reaches a candidate whose bind fails with an errno other
than `EADDRINUSE`, that error is propagated at once (the Python `raise`) and
no candidate beyond it is probed. -/
theorem allocScan_fatal_stops (env : Nat → BindOutcome) (base min k e fuel : Nat)
    (hmin : min ≤ k)
    (hbusy : ∀ i, min ≤ i → i < k → env (base + i) = .failErr EADDRINUSE)
    (hfatal : env (base + k) = .failErr e)
    (hne : e ≠ EADDRINUSE)
    (hfuel : k - min < fuel) :
    allocScan env base min fuel =
      (some (.error e), List.range' min (k - min + 1)) := by
  induction fuel generalizing min with
  | zero => omega
  | succ f ih =>
    rcases Nat.eq_or_lt_of_le hmin with h | h
    · subst h
      simp [allocScan, hfatal, hne, List.range']
    · have hb := hbusy min le_rfl h
      have hrec := ih (min + 1) (by omega)
        (fun i h1 h2 => hbusy i (by omega) h2) (by omega)
      simp only [allocScan, hb, if_pos rfl]
      rw [hrec]
      have hlist : List.range' min (k - min + 1) =
          min :: List.range' (min + 1) (k - (min + 1) + 1) := by
        have h1 : k - min + 1 = (k - (min + 1) + 1) + 1 := by omega
        rw [h1, List.range'_succ]
      rw [hlist]
      simp

theorem allocScan_fatal_stops_witness :
    allocScan (fun p => if p = 56005 then .failErr 13 else .failErr EADDRINUSE)
        56000 3 10 = (some (.error 13), [3, 4, 5]) := by
  have h := allocScan_fatal_stops
    (fun p => if p = 56005 then .failErr 13 else .failErr EADDRINUSE)
    56000 3 5 13 10 (by omega)
    (fun i h1 h2 => by simp only [ite_eq_right_iff]; omega)
    (by simp) (by decide) (by omega)
  simpa [List.range'] using h

/-! ### The relay bridge

`VscodeBridge` (src/vscode.py, lines 171-215) is the protocol for the
accepted downstream (VS Code side) connection; `UnityBridge` (lines 157-168)
is the protocol for the outbound upstream (Unity side) connection.  The pair
is modelled as one state record plus a step function over the events the
asyncio loop can deliver:

* `vscodeData d`    — `VscodeBridge.data_received(d)`;
* `unityData d`     — `UnityBridge.data_received(d)` (writes to the vscode
  transport);
* `connectAttempt b` — one iteration of the `while True` loop in
  `VscodeBridge.try_connect`: `b = false` is the `except OSError` branch
  (print a diagnostic, `await asyncio.sleep(5)`, loop again), `b = true` is
  the `else` branch (store the transport, flush the buffer if non-empty,
  `break`);
* `vscodeConnLost`  — `VscodeBridge.connection_lost`;
* `unityConnLost`   — `UnityBridge.connection_lost`.

The state records, besides the fields the Python objects hold
(`unity_transport` present or not, `buffer`), the observable history: bytes
written to each transport, `close()` calls issued, diagnostics printed and
seconds slept by the retry loop, whether the downstream peer has
disconnected, and whether the `try_connect` task is still looping (`false`
once the `break` ran).  Note that `VscodeBridge.connection_lost` does not
cancel the `try_connect` task, so `tryConnectActive` is deliberately left
unchanged by `vscodeConnLost` — exactly as in the source. -/

structure BridgeState where
  unityTransport : Bool
  buffer : List Nat
  unityWritten : List Nat
  vscodeWritten : List Nat
  unityClosed : Bool
  vscodeClosed : Bool
  vscodePeerClosed : Bool
  tryConnectActive : Bool
  retryLogs : Nat
  sleptSeconds : Nat
deriving DecidableEq

/-- State right after `VscodeBridge.__init__` and `connection_made` (which
only spawns the `try_connect` task). -/
def initBridge : BridgeState :=
  { unityTransport := false
    buffer := []
    unityWritten := []
    vscodeWritten := []
    unityClosed := false
    vscodeClosed := false
    vscodePeerClosed := false
    tryConnectActive := true
    retryLogs := 0
    sleptSeconds := 0 }

inductive Event where
  | vscodeData (d : List Nat)
  | unityData (d : List Nat)
  | connectAttempt (success : Bool)
  | vscodeConnLost
  | unityConnLost
deriving DecidableEq

/-- One event-handler invocation, translated clause by clause from the
source. -/
def step (s : BridgeState) : Event → BridgeState
  | .vscodeData d =>
    -- VscodeBridge.data_received: forward if unity_transport is set, else buffer
    if s.unityTransport then
      { s with unityWritten := s.unityWritten ++ d }
    else
      { s with buffer := s.buffer ++ d }
  | .unityData d =>
    -- UnityBridge.data_received: unconditional write to the vscode transport
    { s with vscodeWritten := s.vscodeWritten ++ d }
  | .connectAttempt success =>
    if s.tryConnectActive then
      if success then
        -- else-branch of try_connect: store transport, flush buffer, break
        { s with
            unityTransport := true
            unityWritten :=
              if s.buffer ≠ [] then s.unityWritten ++ s.buffer
              else s.unityWritten
            buffer := []
            tryConnectActive := false }
      else
        -- except-branch: log, sleep 5 seconds, loop again
        { s with retryLogs := s.retryLogs + 1, sleptSeconds := s.sleptSeconds + 5 }
    else
      s
  | .vscodeConnLost =>
    -- VscodeBridge.connection_lost: close unity_transport if set; the
    -- try_connect task is NOT cancelled
    if s.unityTransport then
      { s with vscodePeerClosed := true, unityClosed := true, unityTransport := false }
    else
      { s with vscodePeerClosed := true }
  | .unityConnLost =>
    -- UnityBridge.connection_lost: close the vscode transport
    { s with vscodeClosed := true }

/-- Run a trace of events from the freshly accepted bridge. -/
def runEvents (es : List Event) : BridgeState := es.foldl step initBridge

/-- Events the asyncio loop can deliver while the bridge is still
AwaitingUpstream: downstream data chunks and failed connect attempts. -/
def preConnect : Event → Bool
  | .vscodeData _ => true
  | .connectAttempt success => !success
  | _ => false

/-- The downstream data chunks of a trace, in receipt order. -/
def vscodeChunks : List Event → List (List Nat)
  | [] => []
  | .vscodeData d :: es => d :: vscodeChunks es
  | _ :: es => vscodeChunks es

theorem foldl_preConnect (es : List Event) (s : BridgeState)
    (hpre : ∀ e ∈ es, preConnect e = true)
    (ht : s.unityTransport = false) (ha : s.tryConnectActive = true) :
    (es.foldl step s).unityTransport = false ∧
    (es.foldl step s).tryConnectActive = true ∧
    (es.foldl step s).buffer = s.buffer ++ (vscodeChunks es).flatten ∧
    (es.foldl step s).unityWritten = s.unityWritten := by
  induction es generalizing s with
  | nil => simp [ht, ha, vscodeChunks]
  | cons e es ih =>
    have he := hpre e (List.mem_cons_self e es)
    have hes : ∀ e ∈ es, preConnect e = true :=
      fun e h => hpre e (List.mem_cons_of_mem _ h)
    cases e with
    | vscodeData d =>
      have := ih { s with buffer := s.buffer ++ d } hes ht ha
      simpa [step, ht, vscodeChunks, List.append_assoc] using this
    | connectAttempt success =>
      cases success with
      | false =>
        have := ih
          { s with retryLogs := s.retryLogs + 1, sleptSeconds := s.sleptSeconds + 5 }
          hes ht ha
        simpa [step, ha, vscodeChunks] using this
      | true => simp [preConnect] at he
    | unityData d => simp [preConnect] at he
    | vscodeConnLost => simp [preConnect] at he
    | unityConnLost => simp [preConnect] at he

/-- C1: every downstream chunk received before upstream connects is appended
to the buffer (nothing reaches upstream yet), and the first successful
connect attempt writes the buffered bytes to upstream exactly once, in
receipt order, then clears the buffer: no byte is dropped or duplicated. -/
theorem bridge_buffers_then_flushes (es : List Event)
    (hpre : ∀ e ∈ es, preConnect e = true) :
    (runEvents es).unityTransport = false ∧
    (runEvents es).buffer = (vscodeChunks es).flatten ∧
    (runEvents es).unityWritten = [] ∧
    (step (runEvents es) (.connectAttempt true)).unityWritten =
      (vscodeChunks es).flatten ∧
    (step (runEvents es) (.connectAttempt true)).buffer = [] := by
  obtain ⟨ht, ha, hb, hw⟩ := foldl_preConnect es initBridge hpre rfl rfl
  have hb' : (runEvents es).buffer = (vscodeChunks es).flatten := by
    simpa [runEvents, initBridge] using hb
  have hw' : (runEvents es).unityWritten = [] := by
    simpa [runEvents, initBridge] using hw
  have ha' : (runEvents es).tryConnectActive = true := ha
  refine ⟨ht, hb', hw', ?_, ?_⟩
  · by_cases hnil : (runEvents es).buffer = []
    · simp only [step, ha', if_true, hnil, ite_not]
      simp [hw', ← hb', hnil]
    · simp only [step, ha', if_true, hnil, ite_not]
      simp [hnil, hw', hb']
  · simp [step, ha']

/-- C3, counterexample: the claim says retries stop once the downstream peer
disconnects.  They do not: `VscodeBridge.connection_lost` never cancels the
`try_connect` task.  Concretely, after one failed attempt the downstream
peer disconnects, yet a further attempt still runs, logging a second
diagnostic and sleeping another 5 seconds, with the retry loop still
active. -/
theorem retry_ignores_disconnect_cex :
    (runEvents [.connectAttempt false, .vscodeConnLost]).vscodePeerClosed = true ∧
    (runEvents [.connectAttempt false, .vscodeConnLost]).retryLogs = 1 ∧
    (runEvents [.connectAttempt false, .vscodeConnLost,
        .connectAttempt false]).retryLogs = 2 ∧
    (runEvents [.connectAttempt false, .vscodeConnLost,
        .connectAttempt false]).sleptSeconds = 10 ∧
    (runEvents [.connectAttempt false, .vscodeConnLost,
        .connectAttempt false]).tryConnectActive = true := by
  decide

/-- C3, amended: while the retry loop is active, every failed connect attempt
logs one diagnostic, sleeps a fixed 5 seconds and leaves the loop active; a
successful attempt establishes the upstream transport and stops the loop;
and a downstream disconnect does not affect the loop — only success
terminates it. -/
theorem retry_loop_behaviour (s : BridgeState) (h : s.tryConnectActive = true) :
    (step s (.connectAttempt false)).retryLogs = s.retryLogs + 1 ∧
    (step s (.connectAttempt false)).sleptSeconds = s.sleptSeconds + 5 ∧
    (step s (.connectAttempt false)).tryConnectActive = true ∧
    (step s (.connectAttempt true)).tryConnectActive = false ∧
    (step s (.connectAttempt true)).unityTransport = true ∧
    (step s .vscodeConnLost).tryConnectActive = s.tryConnectActive := by
  cases hs : s.unityTransport <;> simp [step, h, hs]

theorem retry_loop_behaviour_witness :
    (step initBridge (.connectAttempt false)).retryLogs = 1 ∧
    (step initBridge (.connectAttempt true)).tryConnectActive = false := by
  have h := retry_loop_behaviour initBridge rfl
  exact ⟨h.1, h.2.2.2.1⟩

/-- C5: once the upstream transport is established, a downstream chunk is
written to upstream unchanged (appended to the bytes already written, i.e.
in per-direction order) without touching the buffer, and an upstream chunk
is written to downstream unchanged. -/
theorem connected_forwards_both_ways (s : BridgeState) (d : List Nat)
    (h : s.unityTransport = true) :
    (step s (.vscodeData d)).unityWritten = s.unityWritten ++ d ∧
    (step s (.vscodeData d)).buffer = s.buffer ∧
    (step s (.unityData d)).vscodeWritten = s.vscodeWritten ++ d := by
  simp [step, h]

theorem connected_forwards_both_ways_witness :
    (step (step initBridge (.connectAttempt true)) (.vscodeData [7])).unityWritten
        = [7] ∧
    (step (step initBridge (.connectAttempt true)) (.unityData [8])).vscodeWritten
        = [8] := by
  have h := connected_forwards_both_ways (step initBridge (.connectAttempt true))
    [7] (by decide)
  have h' := connected_forwards_both_ways (step initBridge (.connectAttempt true))
    [8] (by decide)
  exact ⟨by simpa using h.1, by simpa using h'.2.2⟩

/-- C6, counterexample: the claim says a close of either side eventually
closes the other side.  But if the downstream peer disconnects while the
bridge is still AwaitingUpstream, the surviving `try_connect` task can still
succeed afterwards; the upstream connection it then opens is never closed —
`VscodeBridge.connection_lost` has already run — and subsequent events leave
it dangling. -/
theorem dangling_upstream_cex :
    (runEvents [.connectAttempt false, .vscodeConnLost,
        .connectAttempt true]).vscodePeerClosed = true ∧
    (runEvents [.connectAttempt false, .vscodeConnLost,
        .connectAttempt true]).unityTransport = true ∧
    (runEvents [.connectAttempt false, .vscodeConnLost,
        .connectAttempt true]).unityClosed = false ∧
    (step (runEvents [.connectAttempt false, .vscodeConnLost,
        .connectAttempt true]) (.unityData [1])).unityClosed = false ∧
    (step (runEvents [.connectAttempt false, .vscodeConnLost,
        .connectAttempt true]) (.vscodeData [1])).unityClosed = false := by
  decide

/-- C6, amended: an upstream close always closes the downstream transport,
and a downstream close closes the upstream transport provided the upstream
transport is established at that moment; but a downstream close while
AwaitingUpstream closes nothing, and an upstream connection established
after that is never closed. -/
theorem close_propagation (s : BridgeState) (h : s.unityTransport = true) :
    (step s .vscodeConnLost).unityClosed = true ∧
    (step s .vscodeConnLost).unityTransport = false ∧
    (step s .unityConnLost).vscodeClosed = true := by
  simp [step, h]

theorem close_propagation_witness :
    (step (step initBridge (.connectAttempt true)) .vscodeConnLost).unityClosed
        = true := by
  exact (close_propagation (step initBridge (.connectAttempt true)) (by decide)).1

theorem step_buffer_inv (s : BridgeState) (e : Event)
    (hs : s.unityTransport = true → s.buffer = []) :
    (step s e).unityTransport = true → (step s e).buffer = [] := by
  cases e <;> simp only [step] <;> first
    | exact hs
    | (split_ifs <;> simp_all)

/-- C9: in every reachable state of the bridge, if the upstream transport is
set then the pending buffer is empty — the flush on connect success empties
it, and while the transport is set `data_received` writes through instead of
appending, so it stays empty. -/
theorem connected_buffer_empty (es : List Event)
    (h : (runEvents es).unityTransport = true) :
    (runEvents es).buffer = [] := by
  suffices H : ∀ s : BridgeState, (s.unityTransport = true → s.buffer = []) →
      (es.foldl step s).unityTransport = true → (es.foldl step s).buffer = [] by
    exact H initBridge (by simp [initBridge]) h
  clear h
  induction es with
  | nil => intro s hs ht; exact hs ht
  | cons e es ih =>
    intro s hs ht
    exact ih (step s e) (step_buffer_inv s e hs) ht

theorem connected_buffer_empty_witness :
    (runEvents [.vscodeData [9], .connectAttempt true]).buffer = [] := by
  exact connected_buffer_empty [.vscodeData [9], .connectAttempt true] (by decide)

theorem bridge_buffers_then_flushes_witness :
    (runEvents [.vscodeData [1, 2], .connectAttempt false, .vscodeData [3]]).buffer
        = [1, 2, 3] ∧
    (step (runEvents [.vscodeData [1, 2], .connectAttempt false, .vscodeData [3]])
        (.connectAttempt true)).unityWritten = [1, 2, 3] := by
  have h := bridge_buffers_then_flushes
    [.vscodeData [1, 2], .connectAttempt false, .vscodeData [3]]
    (by decide)
  exact ⟨by simpa [vscodeChunks] using h.2.1, by simpa [vscodeChunks] using h.2.2.2.1⟩

/-! ### The relay session (listener lifecycle)

`forward_unity_socket` installs `lambda: VscodeBridge(unity_port)` as the
protocol factory of an `asyncio` server: every accepted inbound connection
constructs a fresh `VscodeBridge`; nothing limits the number of accepted
connections and nothing closes the listener when a downstream connection
closes.  The listener is closed only in `spawn_vscode` (src/vscode.py,
lines 296-300), after `await flatpak('run', ...)` — i.e. after the spawned
editor subprocess exits — via `transport.close()`. -/

structure ServerState where
  connCount : Nat
  listenerOpen : Bool
deriving DecidableEq

def initServer : ServerState := { connCount := 0, listenerOpen := true }

inductive ServerEvent where
  | accept
  | downstreamClose
  | subprocExit
deriving DecidableEq

/-- Session-level transition: `accept` is the asyncio server invoking the
protocol factory on an inbound connection (unconditionally, as long as the
loop runs); `downstreamClose` is a bridge's downstream connection closing
(no session-level handler exists for it in the source); `subprocExit` is
`flatpak('run', ...)` returning in `spawn_vscode`, after which
`transport.close()` closes the listener. -/
def serverStep (s : ServerState) : ServerEvent → ServerState
  | .accept => { s with connCount := s.connCount + 1 }
  | .downstreamClose => s
  | .subprocExit => { s with listenerOpen := false }

def runServer (es : List ServerEvent) : ServerState := es.foldl serverStep initServer

/-- C7, counterexample: the claim says the session services exactly one
inbound connection and closes the listener once that connection closes.
But the server accepts a second connection (creating a second bridge), and
after a downstream close the listener is still open. -/
theorem multiple_bridges_cex :
    (runServer [.accept, .accept]).connCount = 2 ∧
    (runServer [.accept, .accept]).listenerOpen = true ∧
    (runServer [.accept, .downstreamClose]).listenerOpen = true ∧
    (runServer [.accept, .downstreamClose, .accept]).connCount = 2 := by
  decide

/-- C7, amended: the relay session accepts any number of inbound downstream
connections, each constructing its own bridge; a downstream close has no
session-level effect; the listener is closed only when the spawned editor
subprocess exits. -/
theorem session_lifecycle (s : ServerState) :
    (serverStep s .accept).connCount = s.connCount + 1 ∧
    (serverStep s .accept).listenerOpen = s.listenerOpen ∧
    serverStep s .downstreamClose = s ∧
    (serverStep s .subprocExit).listenerOpen = false := by
  simp [serverStep]

/-- C8: the upstream target port computed in `main` is
`unity_pid % 1000 + 56000` for every pid. -/
theorem unity_port_formula (p : Nat) : unity_port p = p % 1000 + 56000 := rfl

/-! ### Preferences rewriting (src/unityhub.py, lines 17-29)

`replace_pref(root, pref, value)` looks up the first direct child of the
preferences root carrying attribute `name="pref"`
(`root.find('*[@name="..."]')`); if none exists it appends a new
`<pref type="string" name="...">` child with empty text.  If the element's
text differs from `value` it is overwritten and `True` is returned,
otherwise `False`.  The root is modelled by its list of children; an
element by its tag, attribute list and optional text. -/

structure Element where
  tag : String
  attrs : List (String × String)
  text : Option String
deriving DecidableEq

/-- Attribute lookup, as ElementTree matches `@name` — the first binding of
the attribute key. -/
def getAttr (e : Element) (k : String) : Option String :=
  (e.attrs.find? (fun p => p.1 == k)).map Prod.snd

/-- `replace_pref`, recursively over the children: the first child whose
`name` attribute equals `pref` has its text replaced (if it differs); if no
child matches, a fresh `<pref type="string" name="pref">` element is
appended, whose `None` text then differs from `value` and is set.  Returns
the new children list and the `True`/`False` result. -/
def replace_pref (children : List Element) (pref value : String) :
    List Element × Bool :=
  match children with
  | [] =>
    ([{ tag := "pref", attrs := [("type", "string"), ("name", pref)],
        text := some value }], true)
  | c :: rest =>
    if getAttr c "name" = some pref then
      if c.text ≠ some value then
        ({ c with text := some value } :: rest, true)
      else
        (c :: rest, false)
    else
      let r := replace_pref rest pref value
      (c :: r.1, r.2)

/-- Text of the element `root.find('*[@name="pref"]')` would return:
`none` when absent, otherwise `some` of the element's (optional) text. -/
def prefText (children : List Element) (pref : String) : Option (Option String) :=
  match children with
  | [] => none
  | c :: rest =>
    if getAttr c "name" = some pref then some c.text
    else prefText rest pref

/-- C10: `replace_pref` is idempotent — a second identical call returns
`False` and leaves the tree unchanged, and after either call the element
named `pref` has text equal to `value`. -/
theorem replace_pref_idempotent (children : List Element) (pref value : String) :
    (replace_pref (replace_pref children pref value).1 pref value).2 = false ∧
    (replace_pref (replace_pref children pref value).1 pref value).1 =
      (replace_pref children pref value).1 ∧
    prefText (replace_pref children pref value).1 pref = some (some value) := by
  induction children with
  | nil =>
    refine ⟨?_, ?_, ?_⟩ <;>
      simp [replace_pref, prefText, getAttr]
  | cons c rest ih =>
    by_cases hc : getAttr c "name" = some pref
    · by_cases htext : c.text = some value
      · simp [replace_pref, prefText, hc, htext]
      · have hc2 : getAttr { c with text := some value } "name" = some pref := hc
        simp [replace_pref, prefText, hc, hc2, htext]
    · have hc' : getAttr { c with text := some value } "name" = getAttr c "name" := rfl
      refine ⟨?_, ?_, ?_⟩ <;>
        simp [replace_pref, prefText, hc, ih.1, ih.2.1, ih.2.2]

end UnityHub
